import Mathlib

/-!
Shallow embedding of the core game engine of a browser "snake" arcade game
(grid, per-tick transition, life loss, pause/resume, randomized food and
power-up placement, high-score tracking).

Conventions of the embedding:
* `Math.random()` draws are injected as explicit streams of coordinate draws
  (`Nat → Coordinate`) or booleans; `Date.now()` is an explicit `now : Int`.
* The host framework batches state updates fired during one tick: every
  queued update is applied in program order at the end of the tick, while
  every plain read inside the tick sees the pre-tick (closure) value, and a
  functional update (`set(x => f x)`) sees the previously queued value.
  The pure function `moveSnake` below computes exactly the state resulting
  from this discipline.
* The food generator used inside the tick and life-loss handler is abstracted
  as an oracle `genFood : List Coordinate → List PowerUp → Coordinate`
  standing for `generateFood` applied to a fresh random stream; the concrete
  rejection-sampling loop is modelled separately as `generateFood`.
-/

inductive Direction
  | UP
  | DOWN
  | LEFT
  | RIGHT
  deriving DecidableEq, Repr, Inhabited

inductive GameStatus
  | IDLE
  | PLAYING
  | PAUSED
  | GAME_OVER
  deriving DecidableEq, Repr, Inhabited

inductive PowerUpType
  | GHOST
  | SLOW_TIME
  deriving DecidableEq, Repr, Inhabited

structure Coordinate where
  x : Int
  y : Int
  deriving DecidableEq, Repr, Inhabited

structure PowerUp where
  x : Int
  y : Int
  type : PowerUpType
  deriving DecidableEq, Repr, Inhabited

structure ActivePowerUp where
  type : PowerUpType
  expiresAt : Int
  deriving DecidableEq, Repr, Inhabited

/-- The reason recorded for a lost life or a game over (`'WALL' | 'SELF'`). -/
inductive LossReason
  | WALL
  | SELF
  deriving DecidableEq, Repr, Inhabited

def GRID_SIZE : Int := 20

def POWERUP_DURATION : Int := 5000

def COMBO_TIMEOUT_MS : Int := 4000

def POINTS_PER_FOOD : Nat := 10

def MAX_LIVES : Nat := 3

def INITIAL_SNAKE : List Coordinate :=
  [{ x := 10, y := 10 }, { x := 10, y := 11 }, { x := 10, y := 12 }]

def INITIAL_DIRECTION : Direction := Direction.UP

/-- The engine state: the component state hooks plus the `savedComboTimeRef`
mutable ref, collected into one record. -/
structure GameState where
  snake : List Coordinate
  food : Coordinate
  powerUps : List PowerUp
  activePowerUp : Option ActivePowerUp
  direction : Direction
  nextDirection : Direction
  score : Nat
  highScore : Nat
  lives : Nat
  status : GameStatus
  combo : Nat
  comboExpiresAt : Int
  savedComboTime : Int
  gameOverReason : Option LossReason
  deriving DecidableEq, Repr

/-- `isOccupied(x, y, currentSnake, currentPowerUps)`: the cell is on the
snake or on a board power-up. -/
def isOccupied (x y : Int) (currentSnake : List Coordinate)
    (currentPowerUps : List PowerUp) : Bool :=
  (List.any currentSnake fun s => s.x == x && s.y == y) ||
  (List.any currentPowerUps fun p => p.x == x && p.y == y)

/-- A coordinate lies inside the `GRID_SIZE × GRID_SIZE` board. -/
def inGrid (c : Coordinate) : Prop :=
  0 ≤ c.x ∧ c.x < GRID_SIZE ∧ 0 ≤ c.y ∧ c.y < GRID_SIZE

instance : DecidablePred inGrid := fun c => by
  unfold inGrid; infer_instance

/-- The exit condition of the `generateFood` rejection-sampling loop at draw
index `i` of the random stream `r`: the drawn cell is free. -/
def foodFree (r : Nat → Coordinate) (snake : List Coordinate)
    (pups : List PowerUp) (i : Nat) : Prop :=
  isOccupied (r i).x (r i).y snake pups = false

instance (r : Nat → Coordinate) (snake : List Coordinate) (pups : List PowerUp) :
    DecidablePred (foodFree r snake pups) := fun i => by
  unfold foodFree; infer_instance

/-- The `do … while (isOccupied …)` loop of `generateFood` exits: some draw
of the stream lands on a free cell.  Without such a draw the loop runs
forever. -/
def foodSearchTerminates (r : Nat → Coordinate) (snake : List Coordinate)
    (pups : List PowerUp) : Prop :=
  ∃ i, foodFree r snake pups i

/-- `generateFood(currentSnake, currentPowerUps)`: unbounded rejection
sampling over the stream of random draws `r`; returns the first draw that is
not occupied.  Defined only when the loop exits. -/
def generateFood (r : Nat → Coordinate) (snake : List Coordinate)
    (pups : List PowerUp) (h : foodSearchTerminates r snake pups) : Coordinate :=
  r (Nat.find h)

/-- The rejection condition of the `generatePowerUp` loop: the candidate cell
is occupied by the snake or a power-up, or coincides with the food. -/
def powerUpBad (loc : Coordinate) (snake : List Coordinate) (food : Coordinate)
    (pups : List PowerUp) : Bool :=
  isOccupied loc.x loc.y snake pups || (loc.x == food.x && loc.y == food.y)

/-- The `do { … attempts++ } while ((occupied || on food) && attempts < 20)`
loop of `generatePowerUp`, drawing `r attempts` on each iteration; returns
the final `(attempts, newLoc)` pair. -/
def powerUpLoop (r : Nat → Coordinate) (snake : List Coordinate)
    (food : Coordinate) (pups : List PowerUp) (attempts : Nat) : Nat × Coordinate :=
  let newLoc := r attempts
  if h : powerUpBad newLoc snake food pups = true ∧ attempts + 1 < 20 then
    powerUpLoop r snake food pups (attempts + 1)
  else
    (attempts + 1, newLoc)
termination_by 20 - attempts
decreasing_by omega

/-- `generatePowerUp(currentSnake, currentFood, currentPowerUps)`: at most one
power-up on the board; bounded rejection sampling, giving up (returning
`none`) once `attempts >= 20`; the kind is `GHOST` when the type roll
`Math.random() > 0.5` succeeds (`toss = true`), else `SLOW_TIME`. -/
def generatePowerUp (r : Nat → Coordinate) (toss : Bool)
    (currentSnake : List Coordinate) (currentFood : Coordinate)
    (currentPowerUps : List PowerUp) : Option PowerUp :=
  if currentPowerUps.length > 0 then none
  else
    let res := powerUpLoop r currentSnake currentFood currentPowerUps 0
    if res.1 ≥ 20 then none
    else some { x := res.2.x, y := res.2.y,
                type := if toss then PowerUpType.GHOST else PowerUpType.SLOW_TIME }

/-- `handleGameOver(currentScore, reason)` as it affects the engine state:
status becomes `GAME_OVER` and the reason is recorded.  (Stopping the loop,
music, the high-score write and the asynchronous commentary request touch no
engine-state field modelled here; the persisted high score is modelled by
`highScoreRun` below.) -/
def handleGameOver (reason : LossReason) (st : GameState) : GameState :=
  { st with status := GameStatus.GAME_OVER, gameOverReason := some reason }

/-- `handleLifeLost(reason)`: with more than one life left, decrement lives,
zero the combo, reset snake / directions / active power-up to the initial
configuration and regenerate the food only if it lies under the reset snake
(the regeneration oracle is called with the initial snake and an empty
power-up list, exactly as `generateFood(INITIAL_SNAKE, [])`); otherwise set
lives to 0 and run the game-over transition. -/
def handleLifeLost (genFood : List Coordinate → List PowerUp → Coordinate)
    (reason : LossReason) (st : GameState) : GameState :=
  if 1 < st.lives then
    { st with
      lives := st.lives - 1,
      combo := 0,
      snake := INITIAL_SNAKE,
      direction := INITIAL_DIRECTION,
      nextDirection := INITIAL_DIRECTION,
      activePowerUp := none,
      food :=
        if List.any INITIAL_SNAKE fun s => s.x == st.food.x && s.y == st.food.y then
          genFood INITIAL_SNAKE []
        else st.food }
  else
    handleGameOver reason { st with lives := 0 }

/-- `handlePause()`: capture the remaining combo time
(`Math.max(0, comboExpiresAt - Date.now())` when `combo > 0`, else `0`) into
the saved-combo ref and set the status to `PAUSED`.  The handler itself has
no status guard. -/
def handlePause (now : Int) (st : GameState) : GameState :=
  { st with
    savedComboTime := if 0 < st.combo then max 0 (st.comboExpiresAt - now) else 0,
    status := GameStatus.PAUSED }

/-- `handleResume()`: when a positive combo remainder was saved, restore
`comboExpiresAt := Date.now() + saved`; set the status to `PLAYING`.  The
handler itself has no status guard. -/
def handleResume (now : Int) (st : GameState) : GameState :=
  { st with
    comboExpiresAt :=
      if 0 < st.savedComboTime then now + st.savedComboTime else st.comboExpiresAt,
    status := GameStatus.PLAYING }

/-- Top-of-tick power-up expiry sweep: clear the active power-up once
`now > expiresAt`. -/
def expirePowerUp (now : Int) (apu : Option ActivePowerUp) : Option ActivePowerUp :=
  match apu with
  | some a => if now > a.expiresAt then none else some a
  | none => none

/-- Top-of-tick combo expiry sweep: `combo > 0 && now > comboExpiresAt`
resets the counter to 0. -/
def expireCombo (now : Int) (combo : Nat) (comboExpiresAt : Int) : Nat :=
  if 0 < combo ∧ now > comboExpiresAt then 0 else combo

/-- The ghost test the tick performs (`activePowerUp?.type === GHOST`),
reading the pre-tick (closure) value of the active power-up. -/
def tickGhost (st : GameState) : Prop :=
  match st.activePowerUp with
  | some a => a.type = PowerUpType.GHOST
  | none => False

instance (st : GameState) : Decidable (tickGhost st) := by
  unfold tickGhost; exact match st.activePowerUp with
  | some a => inferInstanceAs (Decidable (a.type = PowerUpType.GHOST))
  | none => inferInstanceAs (Decidable False)

/-- The head advanced one cell in the buffered direction (`nextDirection`),
before any wall handling. -/
def tickMoved (st : GameState) : Coordinate :=
  let head := st.snake.headI
  match st.nextDirection with
  | Direction.UP => { head with y := head.y - 1 }
  | Direction.DOWN => { head with y := head.y + 1 }
  | Direction.LEFT => { head with x := head.x - 1 }
  | Direction.RIGHT => { head with x := head.x + 1 }

/-- The wall test of the tick: the advanced head left the grid. -/
def outOfBoundsCoord (c : Coordinate) : Prop :=
  c.x < 0 ∨ GRID_SIZE ≤ c.x ∨ c.y < 0 ∨ GRID_SIZE ≤ c.y

instance : DecidablePred outOfBoundsCoord := fun c => by
  unfold outOfBoundsCoord; infer_instance

/-- The ghost wrap applied to one axis: `if v < 0` snap to `GRID_SIZE - 1`,
then `if v >= GRID_SIZE` snap to `0` (the two source conditionals in
sequence). -/
def wrapCoord (v : Int) : Int :=
  let v1 := if v < 0 then GRID_SIZE - 1 else v
  if GRID_SIZE ≤ v1 then 0 else v1

/-- The head the tick actually uses after wall handling: wrapped per axis
when out of bounds (which the tick only reaches with ghost active), the
advanced head otherwise. -/
def tickNewHead (st : GameState) : Coordinate :=
  let m := tickMoved st
  if outOfBoundsCoord m then { x := wrapCoord m.x, y := wrapCoord m.y } else m

/-- The tick dies on the wall: advanced head out of bounds and no ghost. -/
def tickWallDeath (st : GameState) : Prop :=
  outOfBoundsCoord (tickMoved st) ∧ ¬ tickGhost st

/-- The self-collision scan of the tick: the new head equals some segment of
the pre-move snake. -/
def tickSelfHit (st : GameState) : Prop :=
  (List.any st.snake fun seg =>
    seg.x == (tickNewHead st).x && seg.y == (tickNewHead st).y) = true

/-- The tick dies on itself: no ghost, and the self-collision scan hits
(`activePowerUp?.type !== GHOST && prevSnake.some(…)`). -/
def tickSelfDeath (st : GameState) : Prop :=
  ¬ tickGhost st ∧ tickSelfHit st

instance (st : GameState) : Decidable (tickWallDeath st) := by
  unfold tickWallDeath; infer_instance

instance (st : GameState) : Decidable (tickSelfDeath st) := by
  unfold tickSelfDeath tickSelfHit; infer_instance

/-- The food test of the tick: `newHead.x === food.x && newHead.y === food.y`
against the pre-tick food. -/
def tickAte (st : GameState) : Prop :=
  (tickNewHead st).x = st.food.x ∧ (tickNewHead st).y = st.food.y

instance (st : GameState) : Decidable (tickAte st) := by
  unfold tickAte; infer_instance

/-- Power-up pickup: `findIndex` of the new head among the pre-tick board
power-ups; on a hit, activate it until `now + POWERUP_DURATION` and splice it
out of the list. -/
def pickupPowerUp (now : Int) (newHead : Coordinate)
    (prePowerUps : List PowerUp) (st : GameState) : GameState :=
  match List.find? (fun p => p.x == newHead.x && p.y == newHead.y) prePowerUps with
  | some p =>
      { st with
        activePowerUp := some { type := p.type, expiresAt := now + POWERUP_DURATION },
        powerUps :=
          List.eraseIdx prePowerUps
            (List.findIdx (fun q => q.x == newHead.x && q.y == newHead.y) prePowerUps) }
  | none => st

/-- The end-of-tick random spawn block: with the spawn roll successful
(`Math.random() < POWERUP_SPAWN_CHANCE`), and no power-up pending on the
board, try `generatePowerUp` against the pre-tick (closure) snake and food
and the pending board list. -/
def spawnPowerUp (pr : Nat → Coordinate) (toss : Bool) (spawnRoll : Bool)
    (preSnake : List Coordinate) (preFood : Coordinate) (st : GameState) : GameState :=
  if spawnRoll then
    { st with
      powerUps :=
        if st.powerUps.length ≥ 1 then st.powerUps
        else
          match generatePowerUp pr toss preSnake preFood st.powerUps with
          | some item => st.powerUps ++ [item]
          | none => st.powerUps }
  else st

/-- The state after the tick's top-of-tick queued updates — the expiry
sweeps and the `setDirection(nextDirection)` buffer transfer — before any
collision resolution. -/
def tickBase (now : Int) (st : GameState) : GameState :=
  { st with
    activePowerUp := expirePowerUp now st.activePowerUp,
    combo := expireCombo now st.combo st.comboExpiresAt,
    direction := st.nextDirection }

/-- `moveSnake()` — one game tick.  `genFood` is the food-regeneration
oracle, `pr` / `toss` the power-up placement draws, `spawnRoll` the result of
the spawn-chance roll and `now` the clock.  No-op unless `PLAYING`.  In
order: power-up and combo expiry sweeps, direction update from the buffer,
wall check (wrap with ghost, life loss without), self check (skipped with
ghost), food check (grow, combo increment, score with the multiplier
computed from the closure combo, combo window reset, food respawn) or tail
pop, power-up pickup, and the random spawn block. -/
def moveSnake (genFood : List Coordinate → List PowerUp → Coordinate)
    (pr : Nat → Coordinate) (toss : Bool) (spawnRoll : Bool) (now : Int)
    (st : GameState) : GameState :=
  if st.status = GameStatus.PLAYING then
    let stBase : GameState := tickBase now st
    let inner : GameState :=
      if tickWallDeath st then handleLifeLost genFood LossReason.WALL stBase
      else if tickSelfDeath st then handleLifeLost genFood LossReason.SELF stBase
      else
        let newHead := tickNewHead st
        let grown := newHead :: st.snake
        let afterFood : GameState :=
          if tickAte st then
            { stBase with
              snake := grown,
              combo := expireCombo now st.combo st.comboExpiresAt + 1,
              score := st.score + POINTS_PER_FOOD * (1 + (st.combo + 1) / 5),
              comboExpiresAt := now + COMBO_TIMEOUT_MS,
              food := genFood grown st.powerUps }
          else { stBase with snake := grown.dropLast }
        pickupPowerUp now newHead st.powerUps afterFood
    spawnPowerUp pr toss spawnRoll st.snake st.food inner
  else st

/-- One step of the real-time high-score effect: given the pair
`(highScore, storedValue)` and a newly observed score, raise and persist the
high score exactly when the score exceeds it. -/
def highScoreStep (p : Nat × Nat) (score : Nat) : Nat × Nat :=
  if score > p.1 then (score, score) else p

/-- The high-score effect over a whole process lifetime: the high score is
loaded from the store at startup and every observed score value is run
through `highScoreStep`.  Returns the final `(highScore, storedValue)`. -/
def highScoreRun (init : Nat) (scores : List Nat) : Nat × Nat :=
  List.foldl highScoreStep (init, init) scores

/-- A freshly started round: initial snake heading up, food at (5, 5),
no power-ups, full lives, zero score and combo. -/
def exBaseState : GameState :=
  { snake := INITIAL_SNAKE
    food := { x := 5, y := 5 }
    powerUps := []
    activePowerUp := none
    direction := INITIAL_DIRECTION
    nextDirection := INITIAL_DIRECTION
    score := 0
    highScore := 0
    lives := MAX_LIVES
    status := GameStatus.PLAYING
    combo := 0
    comboExpiresAt := 0
    savedComboTime := 0
    gameOverReason := none }

/-- A round whose combo window has already lapsed when the player pauses:
combo 1, window closed at time 5. -/
def exPauseLapsedState : GameState :=
  { exBaseState with combo := 1, comboExpiresAt := 5 }

/-- A round paused mid-combo: combo 2, window open until time 1000. -/
def exPauseLiveState : GameState :=
  { exBaseState with combo := 2, comboExpiresAt := 1000 }

/-- A tick about to eat the food directly above the head, with a combo of 4
whose window closed at time 100. -/
def exStaleComboState : GameState :=
  { exBaseState with food := { x := 10, y := 9 }, combo := 4, comboExpiresAt := 100 }

/-- A tick about to eat the food directly above the head, no combo pending. -/
def exEatState : GameState :=
  { exBaseState with food := { x := 10, y := 9 } }

/-- Ghost active, snake at the left edge heading left: the next head is out
of bounds at x = -1. -/
def exGhostWrapState : GameState :=
  { exBaseState with
    snake := [{ x := 0, y := 5 }, { x := 1, y := 5 }]
    nextDirection := Direction.LEFT
    activePowerUp := some { type := PowerUpType.GHOST, expiresAt := 1000000 } }

/-- Snake at the left edge heading left with no power-up: the next head is
out of bounds and a life is lost. -/
def exWallState : GameState :=
  { exBaseState with
    snake := [{ x := 0, y := 5 }, { x := 1, y := 5 }]
    nextDirection := Direction.LEFT }

/-- Ghost active on an ordinary mid-board state. -/
def exGhostState : GameState :=
  { exBaseState with activePowerUp := some { type := PowerUpType.GHOST, expiresAt := 1000 } }

/-- The engine at the menu (status `IDLE`). -/
def exIdleState : GameState :=
  { exBaseState with status := GameStatus.IDLE }

/-- A power-up placement draw stream whose first 19 draws land on the snake
and whose 20th draw lands on a free cell. -/
def exCrowdedDraws : Nat → Coordinate :=
  fun i => if i < 19 then { x := 0, y := 0 } else { x := 5, y := 5 }

/-- A draw stream that always lands on the free cell (5, 5). -/
def exFreeDraws : Nat → Coordinate :=
  fun _ => { x := 5, y := 5 }

/-- A draw stream enumerating the whole grid in row-major order, over and
over. -/
def exEnumDraws : Nat → Coordinate :=
  fun i => { x := ((i % 400) / 20 : Nat), y := ((i % 400) % 20 : Nat) }

/-- A constant food oracle returning the corner cell. -/
def zeroFoodOracle : List Coordinate → List PowerUp → Coordinate :=
  fun _ _ => { x := 0, y := 0 }

/-- A constant coordinate draw stream (unused when the spawn roll fails). -/
def zeroDraws : Nat → Coordinate :=
  fun _ => { x := 0, y := 0 }

/-- The food search over the enumerating stream exits against the singleton
snake at the corner: draw 21 is the free cell (1, 1). -/
def exFoodTermWitness : foodSearchTerminates exEnumDraws [{ x := 0, y := 0 }] [] :=
  ⟨21, by decide⟩

/-! ## Field-preservation lemmas for the tick sub-steps -/

theorem spawnPowerUp_snake (pr : Nat → Coordinate) (toss spawnRoll : Bool)
    (s : List Coordinate) (f : Coordinate) (st : GameState) :
    (spawnPowerUp pr toss spawnRoll s f st).snake = st.snake := by
  unfold spawnPowerUp; split <;> rfl

theorem spawnPowerUp_score (pr : Nat → Coordinate) (toss spawnRoll : Bool)
    (s : List Coordinate) (f : Coordinate) (st : GameState) :
    (spawnPowerUp pr toss spawnRoll s f st).score = st.score := by
  unfold spawnPowerUp; split <;> rfl

theorem spawnPowerUp_lives (pr : Nat → Coordinate) (toss spawnRoll : Bool)
    (s : List Coordinate) (f : Coordinate) (st : GameState) :
    (spawnPowerUp pr toss spawnRoll s f st).lives = st.lives := by
  unfold spawnPowerUp; split <;> rfl

theorem spawnPowerUp_status (pr : Nat → Coordinate) (toss spawnRoll : Bool)
    (s : List Coordinate) (f : Coordinate) (st : GameState) :
    (spawnPowerUp pr toss spawnRoll s f st).status = st.status := by
  unfold spawnPowerUp; split <;> rfl

theorem spawnPowerUp_combo (pr : Nat → Coordinate) (toss spawnRoll : Bool)
    (s : List Coordinate) (f : Coordinate) (st : GameState) :
    (spawnPowerUp pr toss spawnRoll s f st).combo = st.combo := by
  unfold spawnPowerUp; split <;> rfl

theorem spawnPowerUp_gameOverReason (pr : Nat → Coordinate) (toss spawnRoll : Bool)
    (s : List Coordinate) (f : Coordinate) (st : GameState) :
    (spawnPowerUp pr toss spawnRoll s f st).gameOverReason = st.gameOverReason := by
  unfold spawnPowerUp; split <;> rfl

theorem spawnPowerUp_food (pr : Nat → Coordinate) (toss spawnRoll : Bool)
    (s : List Coordinate) (f : Coordinate) (st : GameState) :
    (spawnPowerUp pr toss spawnRoll s f st).food = st.food := by
  unfold spawnPowerUp; split <;> rfl

theorem pickupPowerUp_snake (now : Int) (nh : Coordinate) (pre : List PowerUp)
    (st : GameState) : (pickupPowerUp now nh pre st).snake = st.snake := by
  unfold pickupPowerUp; split <;> rfl

theorem pickupPowerUp_score (now : Int) (nh : Coordinate) (pre : List PowerUp)
    (st : GameState) : (pickupPowerUp now nh pre st).score = st.score := by
  unfold pickupPowerUp; split <;> rfl

theorem pickupPowerUp_lives (now : Int) (nh : Coordinate) (pre : List PowerUp)
    (st : GameState) : (pickupPowerUp now nh pre st).lives = st.lives := by
  unfold pickupPowerUp; split <;> rfl

theorem pickupPowerUp_status (now : Int) (nh : Coordinate) (pre : List PowerUp)
    (st : GameState) : (pickupPowerUp now nh pre st).status = st.status := by
  unfold pickupPowerUp; split <;> rfl

theorem pickupPowerUp_combo (now : Int) (nh : Coordinate) (pre : List PowerUp)
    (st : GameState) : (pickupPowerUp now nh pre st).combo = st.combo := by
  unfold pickupPowerUp; split <;> rfl

theorem pickupPowerUp_gameOverReason (now : Int) (nh : Coordinate) (pre : List PowerUp)
    (st : GameState) : (pickupPowerUp now nh pre st).gameOverReason = st.gameOverReason := by
  unfold pickupPowerUp; split <;> rfl

theorem pickupPowerUp_food (now : Int) (nh : Coordinate) (pre : List PowerUp)
    (st : GameState) : (pickupPowerUp now nh pre st).food = st.food := by
  unfold pickupPowerUp; split <;> rfl

/-! ## C3 — pause/resume outside their valid states -/

/-- C3 counterexample: invoking `handleResume` while `IDLE` is not a no-op.
The handler has no status guard, so it flips the status straight to
`PLAYING` even though the game was never started. -/
theorem resume_while_idle_not_noop :
    exIdleState.status ≠ GameStatus.PAUSED ∧
    (handleResume 0 exIdleState).status ≠ exIdleState.status := by
  decide

/-- C3 (amended): `handlePause` and `handleResume` are unguarded — whatever
the current status, `handlePause` always moves it to `PAUSED` (capturing the
combo remainder) and `handleResume` always moves it to `PLAYING`.  The
no-op protection for invalid commands lives at the call sites, not in the
handlers. -/
theorem pause_resume_unconditional (now : Int) (st : GameState) :
    (handlePause now st).status = GameStatus.PAUSED ∧
    (handleResume now st).status = GameStatus.PLAYING := by
  exact ⟨rfl, rfl⟩

/-! ## C4 — life loss with a spare life -/

/-- C4: with `lives > 1`, `handleLifeLost` decrements lives, zeroes the
combo, resets the snake, both direction fields and the active power-up to
the initial configuration, keeps the score and the status, keeps the food
unless it lies under the reset snake, and in that case regenerates it
avoiding the reset snake (given that the food oracle respects occupancy,
as `generateFood` does). -/
theorem lifeLost_with_spare_life (genFood : List Coordinate → List PowerUp → Coordinate)
    (reason : LossReason) (st : GameState)
    (hl : 1 < st.lives) (hp : st.status = GameStatus.PLAYING)
    (hgen : isOccupied (genFood INITIAL_SNAKE []).x (genFood INITIAL_SNAKE []).y
      INITIAL_SNAKE [] = false) :
    (handleLifeLost genFood reason st).lives = st.lives - 1 ∧
    (handleLifeLost genFood reason st).combo = 0 ∧
    (handleLifeLost genFood reason st).snake = INITIAL_SNAKE ∧
    (handleLifeLost genFood reason st).direction = INITIAL_DIRECTION ∧
    (handleLifeLost genFood reason st).nextDirection = INITIAL_DIRECTION ∧
    (handleLifeLost genFood reason st).activePowerUp = none ∧
    (handleLifeLost genFood reason st).score = st.score ∧
    (handleLifeLost genFood reason st).status = GameStatus.PLAYING ∧
    ((List.any INITIAL_SNAKE fun s => s.x == st.food.x && s.y == st.food.y) = false →
      (handleLifeLost genFood reason st).food = st.food) ∧
    ((List.any INITIAL_SNAKE fun s => s.x == st.food.x && s.y == st.food.y) = true →
      (handleLifeLost genFood reason st).food = genFood INITIAL_SNAKE [] ∧
      isOccupied (handleLifeLost genFood reason st).food.x
        (handleLifeLost genFood reason st).food.y INITIAL_SNAKE [] = false) := by
  unfold handleLifeLost
  rw [if_pos hl]
  refine ⟨rfl, rfl, rfl, rfl, rfl, rfl, rfl, hp, ?_, ?_⟩
  · intro h
    simp only [h, Bool.false_eq_true, if_false]
  · intro h
    simp only [h, if_true]
    exact ⟨by trivial, hgen⟩

/-- C4 witness: a concrete life loss from the fresh round. -/
theorem lifeLost_with_spare_life_witness :
    (handleLifeLost zeroFoodOracle LossReason.WALL exBaseState).lives = 2 ∧
    (handleLifeLost zeroFoodOracle LossReason.WALL exBaseState).combo = 0 ∧
    (handleLifeLost zeroFoodOracle LossReason.WALL exBaseState).food = { x := 5, y := 5 } := by
  obtain ⟨h1, h2, _, _, _, _, _, _, h9, _⟩ :=
    lifeLost_with_spare_life zeroFoodOracle LossReason.WALL exBaseState
      (by decide) (by decide) (by decide)
  exact ⟨h1.trans (by decide), h2, (h9 (by decide)).trans (by decide)⟩

/-! ## C6 — combo window across pause/resume -/

/-- C6 counterexample: pausing at time 10 with combo 1 whose window closed
at time 5, then resuming at time 100, leaves `comboExpiresAt` at 5 instead
of `100 + (5 - 10)`: the captured remainder is clamped at 0 and a zero
remainder is not restored. -/
theorem pause_resume_lapsed_combo_cex :
    0 < exPauseLapsedState.combo ∧
    (handleResume 100 (handlePause 10 exPauseLapsedState)).comboExpiresAt =
      exPauseLapsedState.comboExpiresAt ∧
    (handleResume 100 (handlePause 10 exPauseLapsedState)).comboExpiresAt ≠
      100 + (exPauseLapsedState.comboExpiresAt - 10) := by
  decide

/-- C6 (amended): across a pause at `t1` and a resume at `t2` with no
intervening command, if `combo > 0` and the window is still open at the
pause (`t1 < comboExpiresAt`), the remaining time is captured and
`comboExpiresAt` becomes `t2` plus that remainder; if the window had
already lapsed at the pause, the clamped remainder 0 is not restored and
`comboExpiresAt` is left unchanged.  The combo counter itself survives the
round trip. -/
theorem pause_resume_combo_restore (st : GameState) (t1 t2 : Int)
    (hc : 0 < st.combo) :
    (t1 < st.comboExpiresAt →
      (handleResume t2 (handlePause t1 st)).comboExpiresAt =
        t2 + (st.comboExpiresAt - t1)) ∧
    (st.comboExpiresAt ≤ t1 →
      (handleResume t2 (handlePause t1 st)).comboExpiresAt = st.comboExpiresAt) ∧
    (handleResume t2 (handlePause t1 st)).combo = st.combo := by
  unfold handleResume handlePause
  simp only [if_pos hc]
  refine ⟨?_, ?_, by trivial⟩
  · intro h
    split
    · omega
    · omega
  · intro h
    split
    · omega
    · omega

/-- C6 witness: pause at 400 with the window open until 1000, resume at
900 — the window becomes 900 + 600 = 1500. -/
theorem pause_resume_combo_restore_witness :
    (handleResume 900 (handlePause 400 exPauseLiveState)).comboExpiresAt = 1500 ∧
    (handleResume 900 (handlePause 400 exPauseLiveState)).combo = 2 := by
  obtain ⟨h1, _, h3⟩ :=
    pause_resume_combo_restore exPauseLiveState 400 900 (by decide)
  exact ⟨(h1 (by decide)).trans (by decide), h3.trans (by decide)⟩

/-! ## C7 — snake length across a tick -/

/-- C7: a tick that completes without life loss grows the snake by exactly
one segment when the food is eaten and leaves the length unchanged
otherwise; in particular the length never decreases on such a tick. -/
theorem tick_snake_length (genFood : List Coordinate → List PowerUp → Coordinate)
    (pr : Nat → Coordinate) (toss spawnRoll : Bool) (now : Int) (st : GameState)
    (hp : st.status = GameStatus.PLAYING)
    (hw : ¬ tickWallDeath st) (hs : ¬ tickSelfDeath st) :
    (moveSnake genFood pr toss spawnRoll now st).snake.length
      = st.snake.length + (if tickAte st then 1 else 0) ∧
    st.snake.length ≤ (moveSnake genFood pr toss spawnRoll now st).snake.length := by
  have key : (moveSnake genFood pr toss spawnRoll now st).snake
      = if tickAte st then tickNewHead st :: st.snake
        else (tickNewHead st :: st.snake).dropLast := by
    simp only [moveSnake]
    rw [if_pos hp, if_neg hw, if_neg hs]
    rw [spawnPowerUp_snake, pickupPowerUp_snake]
    split <;> rfl
  rw [key]
  by_cases ha : tickAte st <;>
    simp [ha, List.length_dropLast, List.length_cons]

/-- C7 witness: an ordinary tick of the fresh round (no food ahead) keeps
the snake at length 3. -/
theorem tick_snake_length_witness :
    (moveSnake zeroFoodOracle zeroDraws true false 50 exBaseState).snake.length = 3 ∧
    exBaseState.snake.length
      ≤ (moveSnake zeroFoodOracle zeroDraws true false 50 exBaseState).snake.length := by
  obtain ⟨h1, h2⟩ := tick_snake_length zeroFoodOracle zeroDraws true false 50 exBaseState
    (by decide) (by decide) (by decide)
  exact ⟨h1.trans (by decide), h2⟩

/-! ## C9 — ghost makes SELF life loss unreachable -/

/-- C9: with a GHOST power-up recorded at the start of a tick, the tick's
self-collision condition is statically false (the scan is guarded by
`activePowerUp?.type !== GHOST` on the pre-tick value), and the tick loses
no life and records no game-over reason. -/
theorem ghost_skips_self_check (genFood : List Coordinate → List PowerUp → Coordinate)
    (pr : Nat → Coordinate) (toss spawnRoll : Bool) (now : Int) (st : GameState)
    (hp : st.status = GameStatus.PLAYING)
    (hg : tickGhost st) :
    ¬ tickSelfDeath st ∧
    (moveSnake genFood pr toss spawnRoll now st).lives = st.lives ∧
    (moveSnake genFood pr toss spawnRoll now st).status = st.status ∧
    (moveSnake genFood pr toss spawnRoll now st).gameOverReason = st.gameOverReason := by
  have hsd : ¬ tickSelfDeath st := fun h => h.1 hg
  have hwd : ¬ tickWallDeath st := fun h => h.2 hg
  refine ⟨hsd, ?_, ?_, ?_⟩
  all_goals
    simp only [moveSnake]
    rw [if_pos hp, if_neg hwd, if_neg hsd]
    simp only [spawnPowerUp_lives, spawnPowerUp_status, spawnPowerUp_gameOverReason,
      pickupPowerUp_lives, pickupPowerUp_status, pickupPowerUp_gameOverReason]
    split <;> rfl

/-- C9 witness: a concrete ghost tick keeps all three lives and stays
`PLAYING` with no game-over reason. -/
theorem ghost_skips_self_check_witness :
    (moveSnake zeroFoodOracle zeroDraws true false 50 exGhostState).lives = 3 ∧
    (moveSnake zeroFoodOracle zeroDraws true false 50 exGhostState).status
      = GameStatus.PLAYING := by
  obtain ⟨_, h2, h3, _⟩ := ghost_skips_self_check zeroFoodOracle zeroDraws true false 50
    exGhostState (by decide) (by decide)
  exact ⟨h2.trans (by decide), h3.trans (by decide)⟩

/-! ## C1 — score increment on a food-eat -/

/-- C1 counterexample: a tick that both expires the combo at its top
(combo 4, window closed at 100, tick at 200) and eats the food awards
`10 * (1 + floor((4+1)/5)) = 20` points, computed from the stale pre-expiry
counter, while the stored combo after the tick is 1 — the claimed formula
`10 * (1 + floor(combo_after_increment / 5))` would award 10. -/
theorem eat_score_stale_combo_cex :
    0 < exStaleComboState.combo ∧
    (200 : Int) > exStaleComboState.comboExpiresAt ∧
    (moveSnake zeroFoodOracle zeroDraws true false 200 exStaleComboState).combo = 1 ∧
    (moveSnake zeroFoodOracle zeroDraws true false 200 exStaleComboState).score
      = exStaleComboState.score + 20 ∧
    (moveSnake zeroFoodOracle zeroDraws true false 200 exStaleComboState).score
      ≠ exStaleComboState.score + POINTS_PER_FOOD *
          (1 + (moveSnake zeroFoodOracle zeroDraws true false 200 exStaleComboState).combo / 5) := by
  decide

/-- C1 (amended): on every food-eating tick the score increases by exactly
`POINTS_PER_FOOD * (1 + floor((c0 + 1) / 5))` where `c0` is the combo
counter at the start of the tick, BEFORE the top-of-tick expiry (the code
computes `effectiveCombo = combo + 1` from the closure value); the stored
combo counter itself becomes (expired ? 0 : c0) + 1, so whenever no expiry
fires on the same tick this coincides with the claimed
`10 * (1 + floor(combo_after_increment / 5))`. -/
theorem tick_eat_score (genFood : List Coordinate → List PowerUp → Coordinate)
    (pr : Nat → Coordinate) (toss spawnRoll : Bool) (now : Int) (st : GameState)
    (hp : st.status = GameStatus.PLAYING)
    (hw : ¬ tickWallDeath st) (hs : ¬ tickSelfDeath st) (ha : tickAte st) :
    (moveSnake genFood pr toss spawnRoll now st).score
      = st.score + POINTS_PER_FOOD * (1 + (st.combo + 1) / 5) ∧
    (moveSnake genFood pr toss spawnRoll now st).combo
      = expireCombo now st.combo st.comboExpiresAt + 1 := by
  constructor
  all_goals
    simp only [moveSnake]
    rw [if_pos hp, if_neg hw, if_neg hs, if_pos ha]
    simp only [spawnPowerUp_score, pickupPowerUp_score,
      spawnPowerUp_combo, pickupPowerUp_combo]

/-- C1 witness: eating with no pending combo awards 10 points and sets the
combo to 1. -/
theorem tick_eat_score_witness :
    (moveSnake zeroFoodOracle zeroDraws true false 50 exEatState).score = 10 ∧
    (moveSnake zeroFoodOracle zeroDraws true false 50 exEatState).combo = 1 := by
  obtain ⟨h1, h2⟩ := tick_eat_score zeroFoodOracle zeroDraws true false 50 exEatState
    (by decide) (by decide) (by decide) (by decide)
  exact ⟨h1.trans (by decide), h2.trans (by decide)⟩

/-! ## C5 — wall handling: ghost wrap or life loss -/

theorem tickMoved_near (st : GameState) (h : inGrid st.snake.headI) :
    -1 ≤ (tickMoved st).x ∧ (tickMoved st).x ≤ GRID_SIZE ∧
    -1 ≤ (tickMoved st).y ∧ (tickMoved st).y ≤ GRID_SIZE := by
  unfold inGrid GRID_SIZE at h
  unfold tickMoved GRID_SIZE
  cases st.nextDirection <;> dsimp only <;> omega

theorem wrapCoord_eq_emod (v : Int) (h1 : -1 ≤ v) (h2 : v ≤ GRID_SIZE) :
    wrapCoord v = v % GRID_SIZE := by
  unfold GRID_SIZE at h2
  simp only [wrapCoord, GRID_SIZE]
  split_ifs <;> omega

theorem dropLast_cons_head (a : Coordinate) (l : List Coordinate) (hl : l ≠ []) :
    ((a :: l).dropLast).head? = some a := by
  cases l with
  | nil => exact absurd rfl hl
  | cons b t => rfl

theorem handleLifeLost_spare_fields (genFood : List Coordinate → List PowerUp → Coordinate)
    (reason : LossReason) (st : GameState) (hl : 1 < st.lives) :
    (handleLifeLost genFood reason st).lives = st.lives - 1 ∧
    (handleLifeLost genFood reason st).snake = INITIAL_SNAKE ∧
    (handleLifeLost genFood reason st).status = st.status := by
  unfold handleLifeLost
  rw [if_pos hl]
  exact ⟨rfl, rfl, rfl⟩

theorem handleLifeLost_gameOver_fields (genFood : List Coordinate → List PowerUp → Coordinate)
    (reason : LossReason) (st : GameState) (hl : st.lives ≤ 1) :
    (handleLifeLost genFood reason st).status = GameStatus.GAME_OVER ∧
    (handleLifeLost genFood reason st).gameOverReason = some reason ∧
    (handleLifeLost genFood reason st).snake = st.snake ∧
    (handleLifeLost genFood reason st).lives = 0 := by
  unfold handleLifeLost
  rw [if_neg (by omega)]
  exact ⟨rfl, rfl, rfl, rfl⟩

/-- C5: on a tick whose advanced head leaves the grid (with the pre-tick
head on the grid): with GHOST recorded, each axis wraps to the opposite
edge — the new head is the advanced head taken modulo `GRID_SIZE`
per axis — and play continues with lives intact; without GHOST,
life-loss(WALL) runs: with a spare life the snake is reset to the initial
configuration and play continues, otherwise the game ends with reason WALL
and the pre-tick snake untouched.  In particular no head-wrap ever happens
without GHOST. -/
theorem tick_wall_wrap_or_death (genFood : List Coordinate → List PowerUp → Coordinate)
    (pr : Nat → Coordinate) (toss spawnRoll : Bool) (now : Int) (st : GameState)
    (hp : st.status = GameStatus.PLAYING)
    (hhead : inGrid st.snake.headI)
    (hne : st.snake ≠ [])
    (hoob : outOfBoundsCoord (tickMoved st)) :
    (tickGhost st →
      (moveSnake genFood pr toss spawnRoll now st).snake.head?
        = some { x := (tickMoved st).x % GRID_SIZE, y := (tickMoved st).y % GRID_SIZE } ∧
      (moveSnake genFood pr toss spawnRoll now st).status = GameStatus.PLAYING ∧
      (moveSnake genFood pr toss spawnRoll now st).lives = st.lives) ∧
    (¬ tickGhost st →
      (1 < st.lives →
        (moveSnake genFood pr toss spawnRoll now st).lives = st.lives - 1 ∧
        (moveSnake genFood pr toss spawnRoll now st).snake = INITIAL_SNAKE ∧
        (moveSnake genFood pr toss spawnRoll now st).status = GameStatus.PLAYING) ∧
      (st.lives ≤ 1 →
        (moveSnake genFood pr toss spawnRoll now st).status = GameStatus.GAME_OVER ∧
        (moveSnake genFood pr toss spawnRoll now st).gameOverReason = some LossReason.WALL ∧
        (moveSnake genFood pr toss spawnRoll now st).snake = st.snake ∧
        (moveSnake genFood pr toss spawnRoll now st).lives = 0)) := by
  constructor
  · intro hg
    have hwd : ¬ tickWallDeath st := fun hcon => hcon.2 hg
    have hsd : ¬ tickSelfDeath st := fun hcon => hcon.1 hg
    have hnewhead : tickNewHead st
        = { x := (tickMoved st).x % GRID_SIZE, y := (tickMoved st).y % GRID_SIZE } := by
      obtain ⟨b1, b2, b3, b4⟩ := tickMoved_near st hhead
      unfold tickNewHead
      rw [if_pos hoob, wrapCoord_eq_emod _ b1 b2, wrapCoord_eq_emod _ b3 b4]
    refine ⟨?_, ?_, ?_⟩
    · simp only [moveSnake]
      rw [if_pos hp, if_neg hwd, if_neg hsd]
      rw [spawnPowerUp_snake, pickupPowerUp_snake]
      by_cases ha : tickAte st
      · rw [if_pos ha]
        show (tickNewHead st :: st.snake).head? = _
        rw [List.head?_cons, hnewhead]
      · rw [if_neg ha]
        show ((tickNewHead st :: st.snake).dropLast).head? = _
        rw [dropLast_cons_head _ _ hne, hnewhead]
    · simp only [moveSnake]
      rw [if_pos hp, if_neg hwd, if_neg hsd]
      rw [spawnPowerUp_status, pickupPowerUp_status]
      split <;> exact hp
    · simp only [moveSnake]
      rw [if_pos hp, if_neg hwd, if_neg hsd]
      rw [spawnPowerUp_lives, pickupPowerUp_lives]
      split <;> rfl
  · intro hg
    have hwd : tickWallDeath st := ⟨hoob, hg⟩
    constructor
    · intro hl
      refine ⟨?_, ?_, ?_⟩
      all_goals
        simp only [moveSnake]
        rw [if_pos hp, if_pos hwd]
        simp only [spawnPowerUp_lives, spawnPowerUp_snake, spawnPowerUp_status]
      · exact (handleLifeLost_spare_fields genFood LossReason.WALL (tickBase now st)
          (by exact hl)).1
      · exact (handleLifeLost_spare_fields genFood LossReason.WALL (tickBase now st)
          (by exact hl)).2.1
      · exact ((handleLifeLost_spare_fields genFood LossReason.WALL (tickBase now st)
          (by exact hl)).2.2).trans (by exact hp)
    · intro hl
      refine ⟨?_, ?_, ?_, ?_⟩
      all_goals
        simp only [moveSnake]
        rw [if_pos hp, if_pos hwd]
        simp only [spawnPowerUp_lives, spawnPowerUp_snake, spawnPowerUp_status,
          spawnPowerUp_gameOverReason]
      · exact (handleLifeLost_gameOver_fields genFood LossReason.WALL (tickBase now st)
          (by exact hl)).1
      · exact (handleLifeLost_gameOver_fields genFood LossReason.WALL (tickBase now st)
          (by exact hl)).2.1
      · exact (handleLifeLost_gameOver_fields genFood LossReason.WALL (tickBase now st)
          (by exact hl)).2.2.1
      · exact (handleLifeLost_gameOver_fields genFood LossReason.WALL (tickBase now st)
          (by exact hl)).2.2.2

/-- C5 witness: ghost active at the left edge heading left — the head wraps
from x = -1 to x = 19 and play continues with all lives. -/
theorem tick_wall_wrap_or_death_witness :
    (moveSnake zeroFoodOracle zeroDraws true false 0 exGhostWrapState).snake.head?
      = some { x := 19, y := 5 } ∧
    (moveSnake zeroFoodOracle zeroDraws true false 0 exGhostWrapState).status
      = GameStatus.PLAYING ∧
    (moveSnake zeroFoodOracle zeroDraws true false 0 exGhostWrapState).lives = 3 := by
  obtain ⟨hA, _⟩ := tick_wall_wrap_or_death zeroFoodOracle zeroDraws true false 0
    exGhostWrapState (by decide) (by decide) (by decide) (by decide)
  obtain ⟨h1, h2, h3⟩ := hA (by decide)
  exact ⟨h1.trans (by decide), h2, h3.trans (by decide)⟩

/-! ## C2 — bounded power-up placement -/

theorem powerUpLoop_all_bad (r : Nat → Coordinate) (snake : List Coordinate)
    (food : Coordinate) (pups : List PowerUp) :
    ∀ n a, 20 - a = n → a < 20 →
      (∀ i, a ≤ i → i < 19 → powerUpBad (r i) snake food pups = true) →
      powerUpLoop r snake food pups a = (20, r 19) := by
  intro n
  induction n with
  | zero => intro a h ha _; omega
  | succ k ih =>
    intro a hn ha hbad
    by_cases hcase : a = 19
    · subst hcase
      rw [powerUpLoop, dif_neg]
      intro hcon
      omega
    · have ha19 : a < 19 := by omega
      rw [powerUpLoop, dif_pos ⟨hbad a le_rfl ha19, by omega⟩]
      exact ih (a + 1) (by omega) (by omega) (fun i hi hi19 => hbad i (by omega) hi19)

theorem powerUpLoop_first_good (r : Nat → Coordinate) (snake : List Coordinate)
    (food : Coordinate) (pups : List PowerUp) :
    ∀ n a i, i - a = n → a ≤ i → i < 19 →
      powerUpBad (r i) snake food pups = false →
      (∀ j, a ≤ j → j < i → powerUpBad (r j) snake food pups = true) →
      powerUpLoop r snake food pups a = (i + 1, r i) := by
  intro n
  induction n with
  | zero =>
    intro a i hn hai hi hg _
    have hae : a = i := by omega
    subst hae
    rw [powerUpLoop, dif_neg]
    intro hcon
    rw [hg] at hcon
    exact absurd hcon.1 (by simp)
  | succ k ih =>
    intro a i hn hai hi hg hbad
    have ha : a < i := by omega
    rw [powerUpLoop, dif_pos ⟨hbad a le_rfl ha, by omega⟩]
    exact ih (a + 1) i (by omega) (by omega) hi hg (fun j hj hji => hbad j (by omega) hji)

theorem generatePowerUp_none_iff (r : Nat → Coordinate) (toss : Bool)
    (snake : List Coordinate) (food : Coordinate) :
    generatePowerUp r toss snake food [] = none ↔
      ∀ i, i < 19 → powerUpBad (r i) snake food [] = true := by
  constructor
  · intro h
    by_contra hex
    push_neg at hex
    obtain ⟨i, hi, hbadne⟩ := hex
    have hexists : ∃ j, j < 19 ∧ powerUpBad (r j) snake food [] = false :=
      ⟨i, hi, by revert hbadne; cases powerUpBad (r i) snake food [] <;> simp⟩
    have hj := Nat.find_spec hexists
    have hloop : powerUpLoop r snake food [] 0 =
        (Nat.find hexists + 1, r (Nat.find hexists)) := by
      refine powerUpLoop_first_good r snake food [] (Nat.find hexists) 0 (Nat.find hexists)
        (by omega) (by omega) hj.1 hj.2 ?_
      intro j hj0 hjlt
      have hmin := Nat.find_min hexists hjlt
      push_neg at hmin
      have := hmin (by omega)
      revert this; cases powerUpBad (r j) snake food [] <;> simp
    unfold generatePowerUp at h
    rw [hloop] at h
    simp only [List.length_nil, gt_iff_lt, Nat.lt_irrefl, if_false] at h
    rw [if_neg (by omega)] at h
    exact Option.noConfusion h
  · intro hb
    unfold generatePowerUp
    rw [powerUpLoop_all_bad r snake food [] 20 0 rfl (by omega)
      (fun i h0 hi => hb i hi)]
    simp

/-- C2 counterexample: with the first 19 draws landing on the snake and the
20th draw landing on a free cell, `generatePowerUp` still returns no spawn —
the loop exits with `attempts == 20` and the post-loop `attempts >= 20`
check discards the successful 20th attempt, contradicting the claim that a
free cell among the first 20 attempts always yields a spawn. -/
theorem powerUp_20th_attempt_discarded_cex :
    powerUpBad (exCrowdedDraws 19) [{ x := 0, y := 0 }] { x := 1, y := 1 } [] = false ∧
    generatePowerUp exCrowdedDraws true [{ x := 0, y := 0 }] { x := 1, y := 1 } [] = none := by
  constructor
  · decide
  · rw [generatePowerUp_none_iff]
    decide

/-- C2 (amended): with no power-up already on the board, placement returns
"no spawn" (`null`) exactly when each of the first 19 placement attempts
landed on an occupied cell (snake, food, or existing power-up); whenever
some attempt among the first 19 lands on a free cell, a power-up spawns at
the first such cell.  The 20th draw is performed but its outcome is
discarded by the `attempts >= 20` check, so exhaustion — a soft no-op,
never an error — is decided by the first 19 attempts alone. -/
theorem powerUp_spawn_bounded (r : Nat → Coordinate) (toss : Bool)
    (snake : List Coordinate) (food : Coordinate) :
    (generatePowerUp r toss snake food [] = none ↔
      ∀ i, i < 19 → powerUpBad (r i) snake food [] = true) ∧
    (∀ i, i < 19 → powerUpBad (r i) snake food [] = false →
      (∀ j, j < i → powerUpBad (r j) snake food [] = true) →
      generatePowerUp r toss snake food [] =
        some { x := (r i).x, y := (r i).y,
               type := if toss then PowerUpType.GHOST else PowerUpType.SLOW_TIME }) := by
  refine ⟨generatePowerUp_none_iff r toss snake food, ?_⟩
  intro i hi hg hmin
  unfold generatePowerUp
  rw [powerUpLoop_first_good r snake food [] i 0 i (by omega) (by omega) hi hg
    (fun j h0 hj => hmin j hj)]
  simp only [List.length_nil, gt_iff_lt, Nat.lt_irrefl, if_false]
  rw [if_neg (by omega)]

/-- C2 witness: a first draw on a free cell spawns a GHOST power-up there. -/
theorem powerUp_spawn_bounded_witness :
    generatePowerUp exFreeDraws true [{ x := 0, y := 0 }] { x := 1, y := 1 } [] =
      some { x := 5, y := 5, type := PowerUpType.GHOST } := by
  have h := (powerUp_spawn_bounded exFreeDraws true [{ x := 0, y := 0 }]
    { x := 1, y := 1 }).2 0 (by omega) (by decide) (fun j hj => absurd hj (by omega))
  simpa using h

/-! ## C8 — high-score monotonicity and persistence -/

theorem highScoreStep_diag (i s : Nat) : highScoreStep (i, i) s = (max i s, max i s) := by
  unfold highScoreStep
  dsimp only
  split
  · have hm : max i s = s := by omega
    rw [hm]
  · have hm : max i s = i := by omega
    rw [hm]

theorem highScoreRun_spec : ∀ (l : List Nat) (i : Nat),
    List.foldl highScoreStep (i, i) l = (List.foldl max i l, List.foldl max i l) := by
  intro l
  induction l with
  | nil => intro i; rfl
  | cons s t ih =>
    intro i
    simp only [List.foldl_cons]
    rw [highScoreStep_diag]
    exact ih (max i s)

theorem le_foldl_max : ∀ (l : List Nat) (i : Nat), i ≤ List.foldl max i l := by
  intro l
  induction l with
  | nil => intro i; exact le_rfl
  | cons s t ih =>
    intro i
    simp only [List.foldl_cons]
    exact le_trans (le_max_left i s) (ih (max i s))

theorem mem_le_foldl_max : ∀ (l : List Nat) (i s : Nat), s ∈ l → s ≤ List.foldl max i l := by
  intro l
  induction l with
  | nil => intro i s h; exact absurd h (List.not_mem_nil s)
  | cons a t ih =>
    intro i s h
    simp only [List.foldl_cons]
    rcases List.mem_cons.mp h with h1 | h2
    · subst h1
      exact le_trans (le_max_right i s) (le_foldl_max t (max i s))
    · exact ih (max i a) s h2

/-- C8: over a process lifetime that loads `init` from the store and then
observes the given sequence of score values, the real-time high-score
effect keeps the high score equal to the running maximum: it never
decreases along any split of the run, dominates the initial value and every
observed score, and the stored value always equals the high score (the
maximum ever reached is persisted). -/
theorem highScore_monotone_persistent (init : Nat) (scores : List Nat) :
    (highScoreRun init scores).1 = List.foldl max init scores ∧
    (highScoreRun init scores).2 = (highScoreRun init scores).1 ∧
    init ≤ (highScoreRun init scores).1 ∧
    (∀ s, s ∈ scores → s ≤ (highScoreRun init scores).1) ∧
    (∀ l1 l2, scores = l1 ++ l2 →
      (highScoreRun init l1).1 ≤ (highScoreRun init scores).1) := by
  have hspec := highScoreRun_spec scores init
  refine ⟨?_, ?_, ?_, ?_, ?_⟩
  · unfold highScoreRun
    rw [hspec]
  · unfold highScoreRun
    rw [hspec]
  · unfold highScoreRun
    rw [hspec]
    exact le_foldl_max scores init
  · intro s hs
    unfold highScoreRun
    rw [hspec]
    exact mem_le_foldl_max scores init s hs
  · intro l1 l2 heq
    unfold highScoreRun
    rw [highScoreRun_spec l1 init, hspec]
    dsimp only
    rw [heq, List.foldl_append]
    exact le_foldl_max l2 (List.foldl max init l1)

/-- C8 witness: loading 5 and observing scores 3, 12, 7 ends with high
score 12, stored as 12. -/
theorem highScore_monotone_persistent_witness :
    (highScoreRun 5 [3, 12, 7]).1 = 12 ∧
    (highScoreRun 5 [3, 12, 7]).2 = (highScoreRun 5 [3, 12, 7]).1 ∧
    7 ≤ (highScoreRun 5 [3, 12, 7]).1 := by
  have h := highScore_monotone_persistent 5 [3, 12, 7]
  exact ⟨h.1.trans (by decide), h.2.1, h.2.2.2.1 7 (by decide)⟩

/-! ## C10 — food placement is unbounded rejection sampling -/

theorem exEnumDraws_inGrid (i : Nat) : inGrid (exEnumDraws i) := by
  unfold exEnumDraws inGrid GRID_SIZE
  dsimp only
  omega

theorem exEnumDraws_fair (c : Coordinate) (hc : inGrid c) : ∃ i, exEnumDraws i = c := by
  cases c with
  | mk cx cy =>
    simp only [inGrid, GRID_SIZE] at hc
    obtain ⟨h1, h2, h3, h4⟩ := hc
    refine ⟨cx.toNat * 20 + cy.toNat, ?_⟩
    unfold exEnumDraws
    have hx : (cx.toNat * 20 + cy.toNat) % 400 / 20 = cx.toNat := by omega
    have hy : (cx.toNat * 20 + cy.toNat) % 400 % 20 = cy.toNat := by omega
    rw [hx, hy, Int.toNat_of_nonneg h1, Int.toNat_of_nonneg h3]

/-- C10: `generateFood` is unbounded rejection sampling with no attempt
cap.  Over any draw stream confined to the grid and fair (every grid cell
is eventually drawn): whenever the snake and power-up list leave at least
one grid cell unoccupied, the loop exits and returns an in-grid cell
occupied by neither; and when every grid cell is occupied, no draw ever
satisfies the exit condition — the loop never terminates. -/
theorem generateFood_rejection_sampling (r : Nat → Coordinate)
    (snake : List Coordinate) (pups : List PowerUp)
    (hr : ∀ i, inGrid (r i))
    (hfair : ∀ c, inGrid c → ∃ i, r i = c) :
    ((∃ c, inGrid c ∧ isOccupied c.x c.y snake pups = false) →
      ∃ h : foodSearchTerminates r snake pups,
        inGrid (generateFood r snake pups h) ∧
        isOccupied (generateFood r snake pups h).x (generateFood r snake pups h).y
          snake pups = false) ∧
    ((∀ c, inGrid c → isOccupied c.x c.y snake pups = true) →
      ¬ foodSearchTerminates r snake pups) := by
  constructor
  · rintro ⟨c, hc, hfree⟩
    obtain ⟨i, hi⟩ := hfair c hc
    have hterm : foodSearchTerminates r snake pups :=
      ⟨i, by unfold foodFree; rw [hi]; exact hfree⟩
    refine ⟨hterm, hr _, ?_⟩
    have hspec := Nat.find_spec hterm
    unfold foodFree at hspec
    exact hspec
  · rintro hall ⟨i, hi⟩
    unfold foodFree at hi
    have hocc := hall (r i) (hr i)
    rw [hocc] at hi
    exact Bool.noConfusion hi

/-- C10 witness: against the singleton snake at the corner, the enumerating
stream's food search exits on an in-grid free cell. -/
theorem generateFood_rejection_sampling_witness :
    inGrid (generateFood exEnumDraws [{ x := 0, y := 0 }] [] exFoodTermWitness) ∧
    isOccupied (generateFood exEnumDraws [{ x := 0, y := 0 }] [] exFoodTermWitness).x
      (generateFood exEnumDraws [{ x := 0, y := 0 }] [] exFoodTermWitness).y
      [{ x := 0, y := 0 }] [] = false := by
  obtain ⟨h, h1, h2⟩ := (generateFood_rejection_sampling exEnumDraws
    [{ x := 0, y := 0 }] [] exEnumDraws_inGrid exEnumDraws_fair).1
    ⟨{ x := 1, y := 1 }, by decide, by decide⟩
  exact ⟨h1, h2⟩
